import Mathlib

/-
Shallow embedding of `src/src/components/NewsCard.tsx`.

The component `NewsCard` is a stateless React function component: it takes a
five-field record (`NewsCardProps`) and returns a JSX element tree built from
the external presentational primitives `Card`, `CardHeader`, `CardContent`,
`Badge` (UI toolkit) and `Image` (image-optimization primitive), plus plain
HTML elements.  We embed the element tree the component returns as an
inductive `Node` type: each primitive or HTML element becomes an `element`
node carrying its tag, its attributes (as key/value string pairs, with the
boolean JSX props `fill` and `priority` recorded as the value `"true"`), and
its children.

The only computation in the component is
`new Date(publicationDate).toLocaleDateString()` (line 41 of the source),
which delegates to the host runtime's date parser and default-locale
short-date formatter.  Those host routines are external collaborators
(spec section 6), so they are a parameter of the embedding: a `DateEnv`
bundles a parser, a valid-date formatter, and the sentinel text returned for
an unparseable date.  A concrete `usEnv` (ISO-style parsing, US short-date
formatting, sentinel "Invalid Date") instantiates it for witnesses.
-/

namespace NewsCardModel

/-- Rendered markup tree: an element with a tag, attributes and children, or
a text node.  This is the shape of the JSX value a React component returns. -/
inductive Node where
  | element (tag : String) (attrs : List (String × String)) (children : List Node)
  | text (s : String)

/-- Input contract of the component, from `interface NewsCardProps` in the
source: five string fields. -/
structure NewsCardProps where
  title : String
  imageUrl : String
  summary : String
  publicationDate : String
  source : String

/-- Calendar date, the abstract result of the host runtime's date parser. -/
structure CalendarDate where
  year : Nat
  month : Nat
  day : Nat

/-- Host environment date routines (spec section 6, "host date-formatting
routine"): a parser from the input string representation, a default-locale
short-date formatter for valid dates, and the sentinel text the formatting
routine returns for an invalid date. -/
structure DateEnv where
  parse : String → Option CalendarDate
  format : CalendarDate → String
  invalidText : String

/-- Model of the expression `new Date(s).toLocaleDateString()` from line 41
of the source: parse the string with the host parser; on success format with
the host default locale, otherwise produce the host sentinel invalid-date
text. -/
def toLocaleDateString (env : DateEnv) (s : String) : String :=
  match env.parse s with
  | some d => env.format d
  | none => env.invalidText

/-- The element tree returned by `NewsCard` (source lines 20 to 46),
transcribed node for node: the `Card` wrapper, the media `div` holding the
`Image` (with `src`, `alt`, `fill`, `className`, `priority`), the
`CardHeader` holding the `h3` title, and the `CardContent` holding the
summary paragraph and the row with the source `Badge` and the date `span`. -/
def NewsCard (env : DateEnv) (p : NewsCardProps) : Node :=
  Node.element "Card"
    [("className", "overflow-hidden transition-all duration-300 hover:scale-[1.02] bg-white/10 backdrop-blur-lg border-white/20")]
    [ Node.element "div" [("className", "relative h-48 w-full")]
        [ Node.element "Image"
            [ ("src", p.imageUrl)
            , ("alt", p.title)
            , ("fill", "true")
            , ("className", "object-cover")
            , ("priority", "true") ]
            [] ]
    , Node.element "CardHeader" [("className", "text-white")]
        [ Node.element "h3" [("className", "text-xl font-bold line-clamp-2")]
            [Node.text p.title] ]
    , Node.element "CardContent" [("className", "space-y-4")]
        [ Node.element "p" [("className", "text-gray-300 line-clamp-3")]
            [Node.text p.summary]
        , Node.element "div" [("className", "flex justify-between items-center")]
            [ Node.element "Badge"
                [ ("variant", "secondary")
                , ("className", "bg-white/20 text-white hover:bg-white/30") ]
                [Node.text p.source]
            , Node.element "span" [("className", "text-sm text-gray-400")]
                [Node.text (toLocaleDateString env p.publicationDate)] ] ] ]

/-- Tag of an element node. -/
def Node.tag : Node → Option String
  | Node.element t _ _ => some t
  | Node.text _ => none

/-- Children of a node (a text node has none). -/
def Node.children : Node → List Node
  | Node.element _ _ cs => cs
  | Node.text _ => []

/-- Child of a node at a position. -/
def Node.childAt (n : Node) (i : Nat) : Option Node :=
  n.children.get? i

/-- Value of an attribute of an element node, by key. -/
def Node.attr : Node → String → Option String
  | Node.element _ as _, k => (as.find? (fun kv => kv.fst == k)).map Prod.snd
  | Node.text _, _ => none

/-- Visible text of a node whose content is a single text child (or of a bare
text node). -/
def Node.innerText : Node → Option String
  | Node.element _ _ [Node.text s] => some s
  | Node.text s => some s
  | _ => none

mutual

/-- All visible text carried in a subtree, in document order.  Attribute
values (such as the image `alt` text) are not visible text. -/
def Node.visibleTexts : Node → List String
  | Node.text s => [s]
  | Node.element _ _ cs => visibleTextsList cs

/-- Visible text of a list of sibling nodes, in order. -/
def visibleTextsList : List Node → List String
  | [] => []
  | n :: ns => Node.visibleTexts n ++ visibleTextsList ns

end

/-- Split a character list on a separator character. -/
def splitOnChar (sep : Char) : List Char → List (List Char)
  | [] => [[]]
  | c :: rest =>
    let r := splitOnChar sep rest
    if c = sep then [] :: r
    else
      match r with
      | [] => [[c]]
      | g :: gs => (c :: g) :: gs

/-- Space-separated tokens of a string, e.g. the class tokens of a
`className` attribute value. -/
def spaceTokens (s : String) : List String :=
  (splitOnChar ' ' s.data).map (fun cs => String.mk cs)

/-- Whether an element's `className` attribute contains the given class
token. -/
def hasClass (n : Node) (c : String) : Bool :=
  (spaceTokens ((n.attr "className").getD "")).contains c

/-- Media region of the card: its first child, the `div` wrapping the image. -/
def mediaRegion (card : Node) : Option Node :=
  card.childAt 0

/-- Header region of the card: its second child, the `CardHeader`. -/
def headerRegion (card : Node) : Option Node :=
  card.childAt 1

/-- Body region of the card: its third child, the `CardContent`. -/
def bodyRegion (card : Node) : Option Node :=
  card.childAt 2

/-- The `Image` element inside the media region. -/
def imageNode (card : Node) : Option Node :=
  (mediaRegion card).bind (fun n => n.childAt 0)

/-- The `h3` title element inside the header region. -/
def titleNode (card : Node) : Option Node :=
  (headerRegion card).bind (fun n => n.childAt 0)

/-- The summary paragraph inside the body region. -/
def summaryNode (card : Node) : Option Node :=
  (bodyRegion card).bind (fun n => n.childAt 0)

/-- The row of the body region holding the source badge and the date. -/
def metaRow (card : Node) : Option Node :=
  (bodyRegion card).bind (fun n => n.childAt 1)

/-- The source `Badge` element. -/
def badgeNode (card : Node) : Option Node :=
  (metaRow card).bind (fun n => n.childAt 0)

/-- The date `span` element. -/
def dateNode (card : Node) : Option Node :=
  (metaRow card).bind (fun n => n.childAt 1)

/-- A rendered card is complete when it is a `Card` element and every one of
its regions and content nodes is present: the component produced its full
output rather than failing. -/
def isCompleteCard (card : Node) : Bool :=
  (card.tag == some "Card") && (mediaRegion card).isSome && (imageNode card).isSome
    && (headerRegion card).isSome && (titleNode card).isSome
    && (bodyRegion card).isSome && (summaryNode card).isSome
    && (badgeNode card).isSome && (dateNode card).isSome

/-- Digits-only reading of a character list as a natural number. -/
def digitsToNat? : List Char → Option Nat
  | [] => none
  | cs => go cs 0
where
  go : List Char → Nat → Option Nat
  | [], acc => some acc
  | c :: rest, acc =>
    if c.isDigit then go rest (acc * 10 + (c.toNat - 48)) else none

/-- ISO-style `YYYY-MM-DD` parsing: three dash-separated digit groups give a
calendar date; anything else is unparseable. -/
def parseShortISO (s : String) : Option CalendarDate :=
  match (splitOnChar '-' s.data).map (fun cs => digitsToNat? cs) with
  | [some y, some m, some d] => some { year := y, month := m, day := d }
  | _ => none

/-- US-locale short-date formatting, `M/D/YYYY`. -/
def usShortFormat (d : CalendarDate) : String :=
  toString d.month ++ "/" ++ toString d.day ++ "/" ++ toString d.year

/-- Concrete host environment for witnesses: ISO-style parsing, US-locale
short-date formatting, and the usual "Invalid Date" sentinel. -/
def usEnv : DateEnv :=
  { parse := parseShortISO, format := usShortFormat, invalidText := "Invalid Date" }

/-- A concrete sample record. -/
def sampleProps : NewsCardProps :=
  { title := "Sample headline"
  , imageUrl := "https://example.com/a.jpg"
  , summary := "A short sample summary."
  , publicationDate := "2024-01-15"
  , source := "Reuters" }

/-- The same field values as `sampleProps`, written differently. -/
def samplePropsCopy : NewsCardProps :=
  { title := "Sample " ++ "headline"
  , imageUrl := "https://" ++ "example.com/a.jpg"
  , summary := "A short sample" ++ " summary."
  , publicationDate := "2024-" ++ "01-15"
  , source := "Reu" ++ "ters" }

/-- A record whose publication date is unparseable. -/
def invalidDateProps : NewsCardProps :=
  { title := "Sample headline"
  , imageUrl := "https://example.com/a.jpg"
  , summary := "A short sample summary."
  , publicationDate := "not-a-date"
  , source := "Reuters" }

/-- A record whose image URL is the empty string. -/
def emptyImageProps : NewsCardProps :=
  { title := "Sample headline"
  , imageUrl := ""
  , summary := "A short sample summary."
  , publicationDate := "2024-01-15"
  , source := "Reuters" }

/-- C1: rendering is deterministic and pure.  `NewsCard` is a total function
of its environment and its five field values, so it reads and writes no
state outside its arguments by construction; this theorem states the
determinism part explicitly: any two invocations on records with the same
five field values produce identical rendered output. -/
theorem newsCard_deterministic (env : DateEnv) (p q : NewsCardProps)
    (ht : p.title = q.title) (hi : p.imageUrl = q.imageUrl)
    (hs : p.summary = q.summary) (hd : p.publicationDate = q.publicationDate)
    (hsrc : p.source = q.source) :
    NewsCard env p = NewsCard env q := by
  have hpq : p = q := by
    cases p
    cases q
    simp_all
  rw [hpq]

/-- Witness for C1 at a concrete input: two records with the same five field
values, written differently, render identically. -/
theorem newsCard_deterministic_witness :
    NewsCard usEnv sampleProps = NewsCard usEnv samplePropsCopy :=
  newsCard_deterministic usEnv sampleProps samplePropsCopy rfl rfl rfl rfl rfl

/-- C2: for `publicationDate = "2024-01-15"`, the date text rendered in the
card's date region is exactly the host environment's default-locale
short-form rendering of the calendar date January 15, 2024, for any host
environment whose parser reads that string as that calendar date. -/
theorem newsCard_date_locale (env : DateEnv) (p : NewsCardProps)
    (hd : p.publicationDate = "2024-01-15")
    (hp : env.parse "2024-01-15" = some { year := 2024, month := 1, day := 15 }) :
    (dateNode (NewsCard env p)).bind Node.innerText
      = some (env.format { year := 2024, month := 1, day := 15 }) := by
  have h0 : (dateNode (NewsCard env p)).bind Node.innerText
      = some (toLocaleDateString env p.publicationDate) := rfl
  rw [h0, hd]
  unfold toLocaleDateString
  rw [hp]

/-- Witness for C2 at a concrete input: under the US-locale environment the
rendered date text is "1/15/2024". -/
theorem newsCard_date_locale_witness :
    (dateNode (NewsCard usEnv sampleProps)).bind Node.innerText = some "1/15/2024" :=
  newsCard_date_locale usEnv sampleProps rfl rfl

/-- C3: for any record whose publication date string the host parser rejects,
the component still produces its complete rendered output, and the date
region contains exactly the environment's sentinel invalid-date text,
uncorrected and unguarded. -/
theorem newsCard_invalid_date (env : DateEnv) (p : NewsCardProps)
    (hp : env.parse p.publicationDate = none) :
    isCompleteCard (NewsCard env p) = true ∧
      (dateNode (NewsCard env p)).bind Node.innerText = some env.invalidText := by
  refine ⟨rfl, ?_⟩
  have h0 : (dateNode (NewsCard env p)).bind Node.innerText
      = some (toLocaleDateString env p.publicationDate) := rfl
  rw [h0]
  unfold toLocaleDateString
  rw [hp]

/-- Witness for C3 at a concrete input: with `publicationDate = "not-a-date"`
the card is complete and the date region reads "Invalid Date". -/
theorem newsCard_invalid_date_witness :
    isCompleteCard (NewsCard usEnv invalidDateProps) = true ∧
      (dateNode (NewsCard usEnv invalidDateProps)).bind Node.innerText
        = some "Invalid Date" :=
  newsCard_invalid_date usEnv invalidDateProps rfl

/-- C4: the source string is the badge's visible text, verbatim: the badge's
single text child is exactly the `source` field, and the badge subtree
carries no other visible text.  In particular with `source = "Reuters"` the
badge's visible text is exactly "Reuters". -/
theorem newsCard_badge_verbatim (env : DateEnv) (p : NewsCardProps) :
    (badgeNode (NewsCard env p)).bind Node.innerText = some p.source ∧
      (badgeNode (NewsCard env p)).map Node.visibleTexts = some [p.source] :=
  ⟨rfl, rfl⟩

/-- C5: the rendered title node carries the two-line clamp styling (class
token `line-clamp-2`) and its text is the title. -/
theorem newsCard_title_clamp (env : DateEnv) (p : NewsCardProps) :
    (titleNode (NewsCard env p)).map (fun n => hasClass n "line-clamp-2") = some true ∧
      (titleNode (NewsCard env p)).bind Node.innerText = some p.title :=
  ⟨rfl, rfl⟩

/-- C6: the rendered summary node carries the three-line clamp styling (class
token `line-clamp-3`) and its text is the summary. -/
theorem newsCard_summary_clamp (env : DateEnv) (p : NewsCardProps) :
    (summaryNode (NewsCard env p)).map (fun n => hasClass n "line-clamp-3") = some true ∧
      (summaryNode (NewsCard env p)).bind Node.innerText = some p.summary :=
  ⟨rfl, rfl⟩

/-- C7: with an empty `imageUrl` the component still produces its complete
rendered output; the empty source reference is passed through unchanged as
the image element's `src`, leaving its handling to the image primitive. -/
theorem newsCard_empty_imageUrl (env : DateEnv) (p : NewsCardProps)
    (h : p.imageUrl = "") :
    isCompleteCard (NewsCard env p) = true ∧
      (imageNode (NewsCard env p)).bind (fun n => n.attr "src") = some "" := by
  refine ⟨rfl, ?_⟩
  have h0 : (imageNode (NewsCard env p)).bind (fun n => n.attr "src")
      = some p.imageUrl := rfl
  rw [h0, h]

/-- Witness for C7 at a concrete input: the record with `imageUrl = ""`
still renders the complete card, with `src` equal to the empty string. -/
theorem newsCard_empty_imageUrl_witness :
    isCompleteCard (NewsCard usEnv emptyImageProps) = true ∧
      (imageNode (NewsCard usEnv emptyImageProps)).bind (fun n => n.attr "src")
        = some "" :=
  newsCard_empty_imageUrl usEnv emptyImageProps rfl

/-- C8: each input field is placed in exactly one visual region: the image
URL is the `src` of the media region's image, the media region shows no
visible text, the header region's visible text is exactly the title, and the
body region's visible text is exactly the summary, the source and the
formatted date, in that order.  `NewsCard` is a total function, so beyond
the date formatting visible here no computation or side effect occurs. -/
theorem newsCard_field_regions (env : DateEnv) (p : NewsCardProps) :
    (imageNode (NewsCard env p)).bind (fun n => n.attr "src") = some p.imageUrl ∧
      (mediaRegion (NewsCard env p)).map Node.visibleTexts = some [] ∧
      (headerRegion (NewsCard env p)).map Node.visibleTexts = some [p.title] ∧
      (bodyRegion (NewsCard env p)).map Node.visibleTexts
        = some [p.summary, p.source, toLocaleDateString env p.publicationDate] :=
  ⟨rfl, rfl, rfl, rfl⟩

/-- C9: the media region is a fixed-height full-width box (`relative h-48
w-full`) whose image element uses the provided reference as `src`, fills the
region (`fill`), is cropped to cover it (`object-cover`), and is requested
eagerly (`priority`). -/
theorem newsCard_image_eager (env : DateEnv) (p : NewsCardProps) :
    (mediaRegion (NewsCard env p)).map
        (fun n => hasClass n "relative" && hasClass n "h-48" && hasClass n "w-full")
      = some true ∧
      (imageNode (NewsCard env p)).bind (fun n => n.attr "src") = some p.imageUrl ∧
      (imageNode (NewsCard env p)).bind (fun n => n.attr "fill") = some "true" ∧
      (imageNode (NewsCard env p)).map (fun n => hasClass n "object-cover") = some true ∧
      (imageNode (NewsCard env p)).bind (fun n => n.attr "priority") = some "true" :=
  ⟨rfl, rfl, rfl, rfl, rfl⟩

/-- C10: the title string is supplied verbatim twice: as the image element's
`alt` attribute in the media region and as the visible text of the header's
title element. -/
theorem newsCard_title_alt (env : DateEnv) (p : NewsCardProps) :
    (imageNode (NewsCard env p)).bind (fun n => n.attr "alt") = some p.title ∧
      (titleNode (NewsCard env p)).bind Node.innerText = some p.title :=
  ⟨rfl, rfl⟩

end NewsCardModel
